import Mathlib

/-!
Shallow embedding of the camera stream acquisition subsystem
(`backend/core/camera_manager.py`): the per-camera worker `CameraStream`,
the registry `CameraManager`, and an event-trace model of the lock/join
behaviour of `stop_camera`.

Modelling conventions:
* wall-clock time is a rational number (the source uses `time.time()` floats);
* a captured frame is abstracted to its identity (`Frame := Nat`); the
  source's `frame.copy()` is irrelevant once frames are values;
* whether the capture device reports itself open within `start`'s grace
  period is an explicit Boolean environment input `opens` (the source asks
  OpenCV); the worker thread's progress up to the point observed by
  `start`'s grace-period read of `is_running` is folded into `start`;
* a successful `thread.join` inside `stop` is modelled by applying the
  worker's `_cleanup`; `stop` sets `is_running := false` itself either way,
  exactly as the source does after the bounded join;
* the capture loop body (`_stream_worker`'s `while` body) is one step
  function `workerStep`, taking the current time and the read result
  (`none` models `ret == False`);
* the database config pull (`load_camera_configs`) is passed in as an
  explicit list parameter; a failed pull is the empty list, which is what
  the source's `except` branch returns.
-/

/-- A captured video frame, abstracted to its identity. -/
abbrev Frame := Nat

/-- A camera configuration record `{id, camera_name, stream_url, fps}`;
`fps` is optional in the dictionary, `CameraStream.__init__` defaults it
to 30 via `.get('fps', 30)`. -/
structure CameraConfig where
  id : Nat
  camera_name : String
  stream_url : String
  fps : Option Nat
deriving DecidableEq

/-- The mutable state of one `CameraStream` object: stream identity fields
copied from the config, stream state (`is_running`, `cap`, `shutdown_event`),
frame management (`latest_frame`, `frame_timestamp`) and statistics
(`frames_captured`, `start_time`, `last_frame_time`).
`cap` abstracts `self.cap` to whether an open device handle is held. -/
structure CameraStream where
  config : CameraConfig
  camera_id : Nat
  camera_name : String
  stream_url : String
  fps : Nat
  is_running : Bool
  cap : Bool
  shutdown_event : Bool
  latest_frame : Option Frame
  frame_timestamp : ℚ
  frames_captured : Nat
  start_time : Option ℚ
  last_frame_time : ℚ
deriving DecidableEq

/-- `CameraStream.__init__(camera_config)`. -/
def CameraStream.mk0 (cfg : CameraConfig) : CameraStream :=
  { config := cfg
    camera_id := cfg.id
    camera_name := cfg.camera_name
    stream_url := cfg.stream_url
    fps := cfg.fps.getD 30
    is_running := false
    cap := false
    shutdown_event := false
    latest_frame := none
    frame_timestamp := 0
    frames_captured := 0
    start_time := none
    last_frame_time := 0 }

/-- `CameraStream._cleanup()`: clears `is_running` and releases the device. -/
def CameraStream.cleanup (s : CameraStream) : CameraStream :=
  { s with is_running := false, cap := false }

/-- `CameraStream.start()`: returns `False` if already running; otherwise
clears the shutdown event, launches the worker thread and, after the
0.5 s grace sleep, returns `self.is_running`.  The worker's start-up is
folded in: if the device opens (`opens = true`) the worker has set
`is_running := true` and `start_time := now` by the time `start` reads the
flag; if it does not open, the worker has already run `_cleanup` and
exited, so `start` reads `false`. -/
def CameraStream.start (s : CameraStream) (opens : Bool) (now : ℚ) :
    Bool × CameraStream :=
  if s.is_running then (false, s)
  else
    let s1 := { s with shutdown_event := false }
    if opens then
      let s2 := { s1 with cap := true, is_running := true, start_time := some now }
      (s2.is_running, s2)
    else
      let s2 := s1.cleanup
      (s2.is_running, s2)

/-- `CameraStream.stop()`: returns `False` if not running; otherwise sets
the shutdown event, joins the worker thread (modelled as the join
completing, so the worker has run `_cleanup`), sets `is_running := False`
and returns `True`. -/
def CameraStream.stop (s : CameraStream) : Bool × CameraStream :=
  if !s.is_running then (false, s)
  else
    let s1 := { s with shutdown_event := true }
    let s2 := s1.cleanup
    (true, { s2 with is_running := false })

/-- `CameraStream.get_latest_frame()`: a copy of the latest frame, or
`None` when none has been captured yet. -/
def CameraStream.get_latest_frame (s : CameraStream) : Option Frame :=
  s.latest_frame

/-- The status dictionary built by `CameraStream.get_stream_info()`. -/
structure StreamInfo where
  camera_id : Nat
  camera_name : String
  is_running : Bool
  frames_captured : Nat
  uptime_seconds : ℚ
  actual_fps : ℚ
  configured_fps : Nat
  last_frame_age : Option ℚ
deriving DecidableEq

/-- `CameraStream.get_stream_info()`: `uptime` is `now - start_time` when a
start time is set (Python truthiness of `self.start_time`) and `0`
otherwise; `actual_fps` divides only when `uptime > 0`; `last_frame_age` is
present only when `last_frame_time > 0`.  The source's `round(·, 2)` on
`actual_fps` is a float-formatting detail and is omitted. -/
def CameraStream.get_stream_info (s : CameraStream) (now : ℚ) : StreamInfo :=
  let uptime : ℚ := match s.start_time with
    | some t => now - t
    | none => 0
  let actual_fps : ℚ := if 0 < uptime then (s.frames_captured : ℚ) / uptime else 0
  { camera_id := s.camera_id
    camera_name := s.camera_name
    is_running := s.is_running
    frames_captured := s.frames_captured
    uptime_seconds := uptime
    actual_fps := actual_fps
    configured_fps := s.fps
    last_frame_age := if 0 < s.last_frame_time then some (now - s.last_frame_time) else none }

/-- `frame_interval = 1.0 / self.fps` inside `_stream_worker`. -/
def CameraStream.frame_interval (s : CameraStream) : ℚ :=
  1 / (s.fps : ℚ)

/-- One iteration of `_stream_worker`'s capture loop, given the current
time and the result of `self.cap.read()` (`none` models `ret == False`).
A shut-down worker's loop has exited, so the state is unchanged; a
rate-limited iteration sleeps and continues; a failed read sleeps and
continues; a successful read stores the frame and timestamp under the
frame lock, then increments `frames_captured` and `last_frame_time`. -/
def CameraStream.workerStep (s : CameraStream) (now : ℚ) (read : Option Frame) :
    CameraStream :=
  if s.shutdown_event then s
  else if now - s.last_frame_time < s.frame_interval then s
  else match read with
    | none => s
    | some f =>
        { s with latest_frame := some f
                 frame_timestamp := now
                 frames_captured := s.frames_captured + 1
                 last_frame_time := now }

/-- A run of the capture loop: fold `workerStep` over a schedule of
(time, read result) pairs. -/
def CameraStream.runWorker (s : CameraStream) : List (ℚ × Option Frame) → CameraStream
  | [] => s
  | (now, read) :: rest => (s.workerStep now read).runWorker rest

/-- The registry state: `CameraManager.streams`, the id → worker dict,
modelled as an association list with at most one binding per id. -/
structure CameraManager where
  streams : List (Nat × CameraStream)
deriving DecidableEq

/-- Dictionary lookup `self.streams[camera_id]` / `camera_id in self.streams`. -/
def lookupStream (camera_id : Nat) : List (Nat × CameraStream) → Option CameraStream
  | [] => none
  | (k, s) :: rest => if k = camera_id then some s else lookupStream camera_id rest

/-- Dictionary assignment `self.streams[camera_id] = s` (replaces an
existing binding, else appends). -/
def insertStream (camera_id : Nat) (s : CameraStream) :
    List (Nat × CameraStream) → List (Nat × CameraStream)
  | [] => [(camera_id, s)]
  | (k, t) :: rest =>
      if k = camera_id then (k, s) :: rest
      else (k, t) :: insertStream camera_id s rest

/-- `CameraManager.__init__`: empty registry. -/
def CameraManager.mk0 : CameraManager := ⟨[]⟩

/-- The loop body of `initialize_cameras`: for each config whose id is not
yet present, construct a (not yet started) worker. -/
def initStreams (streams : List (Nat × CameraStream)) :
    List CameraConfig → List (Nat × CameraStream)
  | [] => streams
  | cfg :: rest =>
      match lookupStream cfg.id streams with
      | some _ => initStreams streams rest
      | none => initStreams (insertStream cfg.id (CameraStream.mk0 cfg) streams) rest

/-- `CameraManager.initialize_cameras()` with the config pull made an
explicit parameter: returns `False` when the pull is empty, else adds a
worker for each new id and returns `True`. -/
def CameraManager.initialize_cameras (m : CameraManager) (configs : List CameraConfig) :
    Bool × CameraManager :=
  if configs.isEmpty then (false, m)
  else (true, ⟨initStreams m.streams configs⟩)

/-- `CameraManager.start_camera(camera_id)`: on an id not in the map, pull
configs and look the id up there, failing with `False` when absent,
otherwise lazily construct the worker; then delegate to the worker's
`start()`.  `configs` is the fresh pull, `opens`/`now` the environment of
the delegated `start`. -/
def CameraManager.start_camera (m : CameraManager) (configs : List CameraConfig)
    (opens : Bool) (now : ℚ) (camera_id : Nat) : Bool × CameraManager :=
  match lookupStream camera_id m.streams with
  | some s =>
      let r := s.start opens now
      (r.1, ⟨insertStream camera_id r.2 m.streams⟩)
  | none =>
      match configs.find? (fun c => c.id == camera_id) with
      | none => (false, m)
      | some cfg =>
          let r := (CameraStream.mk0 cfg).start opens now
          (r.1, ⟨insertStream camera_id r.2 m.streams⟩)

/-- `CameraManager.stop_camera(camera_id)`: `False` on an unknown id, else
delegate to the worker's `stop()`. -/
def CameraManager.stop_camera (m : CameraManager) (camera_id : Nat) :
    Bool × CameraManager :=
  match lookupStream camera_id m.streams with
  | none => (false, m)
  | some s =>
      let r := s.stop
      (r.1, ⟨insertStream camera_id r.2 m.streams⟩)

/-- `CameraManager.stop_all_cameras()`: stop every worker, collecting the
per-id outcomes. -/
def CameraManager.stop_all_cameras (m : CameraManager) :
    List (Nat × Bool) × CameraManager :=
  (m.streams.map (fun p => (p.1, p.2.stop.1)),
   ⟨m.streams.map (fun p => (p.1, p.2.stop.2))⟩)

/-- `CameraManager.get_camera_frame(camera_id)`. -/
def CameraManager.get_camera_frame (m : CameraManager) (camera_id : Nat) :
    Option Frame :=
  match lookupStream camera_id m.streams with
  | none => none
  | some s => s.get_latest_frame

/-- `CameraManager.get_camera_status(camera_id)`. -/
def CameraManager.get_camera_status (m : CameraManager) (camera_id : Nat) (now : ℚ) :
    Option StreamInfo :=
  match lookupStream camera_id m.streams with
  | none => none
  | some s => some (s.get_stream_info now)

/-- `CameraManager.is_camera_running(camera_id)`: `False` on an unknown id. -/
def CameraManager.is_camera_running (m : CameraManager) (camera_id : Nat) : Bool :=
  match lookupStream camera_id m.streams with
  | none => false
  | some s => s.is_running

/-- `CameraManager.refresh_camera_configs()` with the fresh pull made an
explicit parameter: stop all cameras, clear the map, reinitialize. -/
def CameraManager.refresh_camera_configs (m : CameraManager)
    (configs : List CameraConfig) : Bool × CameraManager :=
  let _stopped := m.stop_all_cameras
  let cleared : CameraManager := ⟨[]⟩
  cleared.initialize_cameras configs

/-- The registry's known-id set (the keys of `self.streams`). -/
def CameraManager.knownIds (m : CameraManager) : List Nat :=
  m.streams.map Prod.fst

/-- An observable synchronisation event on the call path of a registry
operation: acquiring or releasing a named lock, or joining a worker thread. -/
inductive Ev where
  | acquire (lock : String)
  | release (lock : String)
  | joinThread (camera_id : Nat)
deriving DecidableEq

/-- The thread-join events performed inside `CameraStream.stop()`: when the
worker is running, the thread is joined (bounded) provided the thread
object exists and `is_alive()` (`alive`); a stop of a non-running worker
performs no join. -/
def CameraStream.stopJoinEvents (s : CameraStream) (alive : Bool) : List Ev :=
  if !s.is_running then []
  else if alive then [Ev.joinThread s.camera_id] else []

/-- The synchronisation events on the call path of
`CameraManager.stop_camera(camera_id)`: the whole body executes inside
`with self.manager_lock:`, so the events of the delegated `stop()` —
including any thread join — sit between the acquire and the release. -/
def CameraManager.stopCameraEvents (m : CameraManager) (camera_id : Nat)
    (alive : Bool) : List Ev :=
  Ev.acquire "manager_lock" ::
    ((match lookupStream camera_id m.streams with
      | none => []
      | some s => s.stopJoinEvents alive) ++ [Ev.release "manager_lock"])

/-- Whether some `joinThread` event of the trace occurs at a point where
`lock` is among the currently held locks. -/
def joinWhileHolding (lock : String) : List String → List Ev → Bool
  | _, [] => false
  | held, Ev.acquire l :: r => joinWhileHolding lock (l :: held) r
  | held, Ev.release l :: r => joinWhileHolding lock (held.erase l) r
  | held, Ev.joinThread _ :: r => held.contains lock || joinWhileHolding lock held r

/-- A sample configuration, used by the concrete witnesses below. -/
def cfgA : CameraConfig := ⟨1, "Entrance", "0", some 30⟩

/-- A worker for `cfgA` that started successfully at time 0 and captured
one frame (frame 7) at time 1. -/
def runningA : CameraStream :=
  (((CameraStream.mk0 cfgA).start true 0).2).workerStep 1 (some 7)

/-- A registry whose only worker is the running `runningA` under id 1. -/
def mgrA : CameraManager := ⟨[(1, runningA)]⟩

/-- Evaluation of the sample worker `runningA`: started, device open, one
frame (frame 7) captured at time 1. -/
theorem runningA_eq :
    runningA =
      { config := cfgA, camera_id := 1, camera_name := "Entrance",
        stream_url := "0", fps := 30, is_running := true, cap := true,
        shutdown_event := false, latest_frame := some 7, frame_timestamp := 1,
        frames_captured := 1, start_time := some 0, last_frame_time := 1 } := by
  unfold runningA CameraStream.workerStep CameraStream.start CameraStream.mk0
  norm_num [cfgA, CameraStream.frame_interval]

/-- The sample registry's `stop_camera(1)` synchronisation trace. -/
theorem mgrA_stopCameraEvents :
    mgrA.stopCameraEvents 1 true =
      [Ev.acquire "manager_lock", Ev.joinThread 1, Ev.release "manager_lock"] := by
  simp [mgrA, CameraManager.stopCameraEvents, lookupStream,
    CameraStream.stopJoinEvents, runningA_eq]

/-- Looking a key up after a dictionary assignment: the assigned key maps
to the new value, every other key is unaffected. -/
theorem lookup_insertStream (i k : Nat) (v : CameraStream)
    (l : List (Nat × CameraStream)) :
    lookupStream i (insertStream k v l) =
      if k = i then some v else lookupStream i l := by
  induction l with
  | nil => by_cases h : k = i <;> simp [insertStream, lookupStream, h]
  | cons p rest ih =>
      obtain ⟨k', v'⟩ := p
      by_cases h1 : k' = k
      · subst h1
        by_cases h2 : k' = i <;> simp [insertStream, lookupStream, h2, ih]
      · by_cases h2 : k' = i
        · subst h2
          simp [insertStream, lookupStream, h1, Ne.symm h1]
        · simp [insertStream, lookupStream, h1, h2, ih]

/-- Re-assigning the value a key already maps to leaves the dictionary
unchanged. -/
theorem insertStream_lookup_self (k : Nat) (v : CameraStream)
    (l : List (Nat × CameraStream)) (h : lookupStream k l = some v) :
    insertStream k v l = l := by
  induction l with
  | nil => simp [lookupStream] at h
  | cons p rest ih =>
      obtain ⟨k', v'⟩ := p
      by_cases h1 : k' = k
      · subst h1
        simp [lookupStream] at h
        simp [insertStream, h]
      · simp [lookupStream, h1] at h
        simp [insertStream, h1, ih h]

/-- A key is among a dictionary's keys exactly when lookup finds it. -/
theorem lookupStream_isSome_iff (i : Nat) (l : List (Nat × CameraStream)) :
    (lookupStream i l).isSome = true ↔ i ∈ l.map Prod.fst := by
  induction l with
  | nil => simp [lookupStream]
  | cons p rest ih =>
      obtain ⟨k, v⟩ := p
      by_cases h : k = i
      · subst h
        simp [lookupStream]
      · simp [lookupStream, h, Ne.symm h, ih]

/-- Looking a key up after the `initialize_cameras` loop: an existing
binding is kept, a missing one is filled from the first config carrying
that id, if any. -/
theorem initStreams_lookup (i : Nat) (streams : List (Nat × CameraStream))
    (configs : List CameraConfig) :
    lookupStream i (initStreams streams configs) =
      match lookupStream i streams with
      | some s => some s
      | none => (configs.find? (fun c => c.id == i)).map CameraStream.mk0 := by
  induction configs generalizing streams with
  | nil =>
      cases h : lookupStream i streams <;> simp [initStreams, h]
  | cons c rest ih =>
      simp only [initStreams]
      cases h : lookupStream c.id streams with
      | some s =>
          rw [ih]
          cases h2 : lookupStream i streams with
          | some t => simp
          | none =>
              have hne : (c.id == i) = false := by
                simp only [beq_eq_false_iff_ne]
                intro he
                rw [he, h2] at h
                exact Option.noConfusion h
              simp [List.find?_cons_of_neg, hne]
      | none =>
          rw [ih, lookup_insertStream]
          by_cases h2 : c.id = i
          · subst h2
            simp [h, List.find?_cons_of_pos]
          · rw [if_neg h2]
            have hne : (c.id == i) = false := by
              simpa using h2
            cases h3 : lookupStream i streams <;>
              simp [List.find?_cons_of_neg, hne, h3]

/-- Claim C1 is false on the code at this concrete input: with worker 1
running and its thread alive, the call path of `stop_camera(1)` performs
the worker thread join while `manager_lock` is among the held locks —
the registry lock is not released before the blocking join. -/
theorem stop_camera_join_under_lock_cex :
    runningA.is_running = true ∧
    joinWhileHolding "manager_lock" [] (mgrA.stopCameraEvents 1 true) = true := by
  constructor
  · rw [runningA_eq]
  · rw [mgrA_stopCameraEvents]
    decide

/-- Claim C1, amended: `stop_camera` executes the delegated `stop()` —
including its bounded worker thread join — entirely inside
`with self.manager_lock:`: whenever the worker for the id is running and
its thread alive, the join occurs while the registry (manager) lock is
held, so it is not released before the blocking join. -/
theorem stop_camera_join_holds_manager_lock (m : CameraManager)
    (camera_id : Nat) (s : CameraStream)
    (h : lookupStream camera_id m.streams = some s)
    (hrun : s.is_running = true) :
    joinWhileHolding "manager_lock" [] (m.stopCameraEvents camera_id true) = true := by
  have htrace : m.stopCameraEvents camera_id true =
      [Ev.acquire "manager_lock", Ev.joinThread s.camera_id,
       Ev.release "manager_lock"] := by
    unfold CameraManager.stopCameraEvents
    rw [h]
    simp [CameraStream.stopJoinEvents, hrun]
  rw [htrace]
  simp [joinWhileHolding]

/-- Concrete instantiation of `stop_camera_join_holds_manager_lock` at
registry `mgrA`, camera 1. -/
theorem stop_camera_join_holds_manager_lock_witness :
    joinWhileHolding "manager_lock" [] (mgrA.stopCameraEvents 1 true) = true :=
  stop_camera_join_holds_manager_lock mgrA 1 runningA
    (by simp [mgrA, lookupStream]) (by rw [runningA_eq])

/-- Claim C6: `stop_camera(id)` returns `True` exactly when the registry
knows the id and that worker is currently running; on an unknown id, a
never-started worker, or an already-stopped worker it returns `False`. -/
theorem stop_camera_true_iff_running (m : CameraManager) (i : Nat) :
    (m.stop_camera i).1 = true ↔
      ∃ s, lookupStream i m.streams = some s ∧ s.is_running = true := by
  unfold CameraManager.stop_camera
  cases h : lookupStream i m.streams with
  | none => simp
  | some s =>
      cases hr : s.is_running with
      | false => simp [CameraStream.stop, hr]
      | true => simp [CameraStream.stop, hr]

/-- Claim C10: `refresh_camera_configs` with an empty (or failed, hence
empty) fresh config pull returns `False` and leaves the registry's
known-id set empty — the previously known workers were already stopped
and discarded and are not restored. -/
theorem refresh_empty_pull_loses_workers (m : CameraManager) :
    (m.refresh_camera_configs []).1 = false ∧
    ((m.refresh_camera_configs []).2).knownIds = [] := by
  simp [CameraManager.refresh_camera_configs, CameraManager.initialize_cameras,
    CameraManager.knownIds]

/-- One capture-loop iteration never decreases `frames_captured`. -/
theorem workerStep_frames_le (s : CameraStream) (now : ℚ) (read : Option Frame) :
    s.frames_captured ≤ (s.workerStep now read).frames_captured := by
  unfold CameraStream.workerStep
  split
  · exact le_refl _
  · split
    · exact le_refl _
    · cases read with
      | none => exact le_refl _
      | some f => exact Nat.le_succ _

/-- A whole capture-loop run never decreases `frames_captured`. -/
theorem runWorker_frames_le (s : CameraStream) (sched : List (ℚ × Option Frame)) :
    s.frames_captured ≤ (s.runWorker sched).frames_captured := by
  induction sched generalizing s with
  | nil => exact le_refl _
  | cons p rest ih =>
      obtain ⟨now, read⟩ := p
      exact le_trans (workerStep_frames_le s now read) (ih _)

/-- Claim C2: the frames-captured counter is 0 at worker construction, is
monotonically non-decreasing under every capture-loop iteration and every
whole run, strictly increases (by one) at each successful non-rate-limited
capture while the worker has not been signalled to shut down, and is left
untouched by `start` and `stop` — so it resets only when the worker object
is reconstructed. -/
theorem frames_captured_monotone (cfg : CameraConfig) (s : CameraStream)
    (now : ℚ) (read : Option Frame) (f : Frame) (opens : Bool)
    (sched : List (ℚ × Option Frame)) :
    (CameraStream.mk0 cfg).frames_captured = 0 ∧
    s.frames_captured ≤ (s.workerStep now read).frames_captured ∧
    s.frames_captured ≤ (s.runWorker sched).frames_captured ∧
    (s.shutdown_event = false →
      ¬ (now - s.last_frame_time < s.frame_interval) →
      (s.workerStep now (some f)).frames_captured = s.frames_captured + 1) ∧
    (s.stop.2).frames_captured = s.frames_captured ∧
    ((s.start opens now).2).frames_captured = s.frames_captured := by
  refine ⟨rfl, workerStep_frames_le s now read, runWorker_frames_le s sched,
    ?_, ?_, ?_⟩
  · intro h1 h2
    unfold CameraStream.workerStep
    rw [if_neg (by simp [h1]), if_neg h2]
  · unfold CameraStream.stop CameraStream.cleanup
    split <;> rfl
  · unfold CameraStream.start CameraStream.cleanup
    split
    · rfl
    · split <;> rfl

/-- A worker for `cfgA` that has just started (device open at time 0) and
not yet captured anything. -/
def startedA : CameraStream := ((CameraStream.mk0 cfgA).start true 0).2

/-- Evaluation of the sample worker `startedA`. -/
theorem startedA_eq :
    startedA =
      { config := cfgA, camera_id := 1, camera_name := "Entrance",
        stream_url := "0", fps := 30, is_running := true, cap := true,
        shutdown_event := false, latest_frame := none, frame_timestamp := 0,
        frames_captured := 0, start_time := some 0, last_frame_time := 0 } := by
  unfold startedA CameraStream.start CameraStream.mk0
  norm_num [cfgA]

/-- Concrete instantiation of `frames_captured_monotone`: a fresh worker's
counter is 0, and a successful capture at time 1 increments it. -/
theorem frames_captured_monotone_witness :
    (CameraStream.mk0 cfgA).frames_captured = 0 ∧
    startedA.frames_captured ≤ (startedA.runWorker [(1, some 7)]).frames_captured ∧
    (startedA.workerStep 1 (some 7)).frames_captured = startedA.frames_captured + 1 := by
  have h := frames_captured_monotone cfgA startedA 1 (some 7) 7 true [(1, some 7)]
  refine ⟨h.1, h.2.2.1, h.2.2.2.1 ?_ ?_⟩
  · rw [startedA_eq]
  · rw [startedA_eq]
    norm_num [CameraStream.frame_interval]

/-- The lazy-construction lookup finds nothing when no config carries the
requested id. -/
theorem find_config_eq_none (configs : List CameraConfig) (i : Nat)
    (h : ∀ c ∈ configs, c.id ≠ i) :
    configs.find? (fun c => c.id == i) = none := by
  rw [List.find?_eq_none]
  intro c hc
  simpa using h c hc

/-- `start()` on an already-running worker is a no-op returning `False`. -/
theorem start_of_running (s : CameraStream) (o : Bool) (t : ℚ)
    (h : s.is_running = true) : s.start o t = (false, s) := by
  unfold CameraStream.start
  rw [if_pos h]

/-- Claim C3: on a known id whose worker is not running, the first
`start_camera` returns whether the device reported itself open within the
grace period (`opens`); a second call made after a successful first start,
while the worker is running, returns `False` and leaves the registry
unchanged — no new worker thread is launched. -/
theorem start_camera_twice (m : CameraManager) (i : Nat) (s : CameraStream)
    (configs configs2 : List CameraConfig) (t1 t2 : ℚ) (o2 : Bool)
    (h : lookupStream i m.streams = some s) (hnr : s.is_running = false) :
    (∀ o1 : Bool, (m.start_camera configs o1 t1 i).1 = o1) ∧
    (((m.start_camera configs true t1 i).2).start_camera configs2 o2 t2 i).1 = false ∧
    (((m.start_camera configs true t1 i).2).start_camera configs2 o2 t2 i).2 =
      (m.start_camera configs true t1 i).2 := by
  have hs2 : (s.start true t1).2.is_running = true := by
    simp [CameraStream.start, hnr]
  have hm1 : (m.start_camera configs true t1 i).2 =
      ⟨insertStream i (s.start true t1).2 m.streams⟩ := by
    unfold CameraManager.start_camera
    rw [h]
  have hlk : lookupStream i (insertStream i (s.start true t1).2 m.streams) =
      some (s.start true t1).2 := by
    rw [lookup_insertStream]
    simp
  have hrun : (s.start true t1).2.start o2 t2 = (false, (s.start true t1).2) :=
    start_of_running _ o2 t2 hs2
  refine ⟨?_, ?_, ?_⟩
  · intro o1
    unfold CameraManager.start_camera
    rw [h]
    cases o1 <;> simp [CameraStream.start, hnr, CameraStream.cleanup]
  · rw [hm1]
    unfold CameraManager.start_camera
    simp only [hlk, hrun]
  · rw [hm1]
    unfold CameraManager.start_camera
    simp only [hlk, hrun]
    simp [insertStream_lookup_self _ _ _ hlk]

/-- A registry holding a single freshly constructed (never started) worker
for `cfgA` under id 1. -/
def mgrIdle : CameraManager := ⟨[(1, CameraStream.mk0 cfgA)]⟩

/-- Concrete instantiation of `start_camera_twice`: on `mgrIdle`,
`start_camera(1)` with an opening device returns `True`, and the
immediately repeated call returns `False`. -/
theorem start_camera_twice_witness :
    (mgrIdle.start_camera [] true 0 1).1 = true ∧
    (((mgrIdle.start_camera [] true 0 1).2).start_camera [] true 1 1).1 = false := by
  have h := start_camera_twice mgrIdle 1 (CameraStream.mk0 cfgA) [] [] 0 1 true
    (by simp [mgrIdle, lookupStream]) rfl
  exact ⟨h.1 true, h.2.1⟩

/-- Claim C5: `start_camera(id)` on an id absent from both the registry
map and the fresh config pull returns `False` and leaves the registry —
in particular its known-id set — unchanged: no worker is constructed or
inserted for that id. -/
theorem start_camera_unknown_and_unconfigured (m : CameraManager)
    (configs : List CameraConfig) (opens : Bool) (now : ℚ) (i : Nat)
    (h1 : lookupStream i m.streams = none)
    (h2 : ∀ c ∈ configs, c.id ≠ i) :
    m.start_camera configs opens now i = (false, m) ∧
    ((m.start_camera configs opens now i).2).knownIds = m.knownIds := by
  have heq : m.start_camera configs opens now i = (false, m) := by
    unfold CameraManager.start_camera
    rw [h1, find_config_eq_none configs i h2]
  exact ⟨heq, by rw [heq]⟩

/-- Concrete instantiation of `start_camera_unknown_and_unconfigured`:
`start_camera(99)` on the empty registry with only camera 1 configured
fails and changes nothing. -/
theorem start_camera_unknown_and_unconfigured_witness :
    CameraManager.mk0.start_camera [cfgA] true 0 99 = (false, CameraManager.mk0) :=
  (start_camera_unknown_and_unconfigured CameraManager.mk0 [cfgA] true 0 99 rfl
    (by decide)).1

/-- Claim C7: stopping a running worker that holds a captured frame
reports success, after which `is_camera_running` is `False` while
`get_camera_frame` still returns that last captured frame — `stop` clears
only the running flag (and the device handle), never the stored frame. -/
theorem stop_camera_retains_frame (m : CameraManager) (i : Nat)
    (s : CameraStream) (f : Frame)
    (h : lookupStream i m.streams = some s)
    (hf : s.latest_frame = some f) (hr : s.is_running = true) :
    (m.stop_camera i).1 = true ∧
    ((m.stop_camera i).2).is_camera_running i = false ∧
    ((m.stop_camera i).2).get_camera_frame i = some f := by
  have h1 : s.stop.1 = true := by
    simp [CameraStream.stop, hr]
  have h2 : s.stop.2.is_running = false := by
    simp [CameraStream.stop, CameraStream.cleanup, hr]
  have h3 : s.stop.2.latest_frame = some f := by
    simp [CameraStream.stop, CameraStream.cleanup, hr, hf]
  have hm : m.stop_camera i = (s.stop.1, ⟨insertStream i s.stop.2 m.streams⟩) := by
    unfold CameraManager.stop_camera
    rw [h]
  have hlk : lookupStream i (insertStream i s.stop.2 m.streams) = some s.stop.2 := by
    rw [lookup_insertStream]
    simp
  rw [hm]
  refine ⟨h1, ?_, ?_⟩
  · unfold CameraManager.is_camera_running
    simp only [hlk]
    exact h2
  · unfold CameraManager.get_camera_frame
    simp only [hlk]
    simpa [CameraStream.get_latest_frame] using h3

/-- Concrete instantiation of `stop_camera_retains_frame` at the sample
registry `mgrA`: stop succeeds, running flips off, frame 7 survives. -/
theorem stop_camera_retains_frame_witness :
    (mgrA.stop_camera 1).1 = true ∧
    ((mgrA.stop_camera 1).2).is_camera_running 1 = false ∧
    ((mgrA.stop_camera 1).2).get_camera_frame 1 = some 7 :=
  stop_camera_retains_frame mgrA 1 runningA 7 (by simp [mgrA, lookupStream])
    (by rw [runningA_eq]) (by rw [runningA_eq])

/-- A second sample configuration, for the refresh witness. -/
def cfgB : CameraConfig := ⟨2, "Lobby", "rtsp://lobby-cam/stream", none⟩

/-- Claim C4: refreshing with a non-empty fresh config pull reports
success, the registry's known-id set becomes exactly the set of ids
present in the fresh configs, and every worker in the refreshed registry
is freshly constructed — frames captured 0, no latest frame, zero
timestamps, no start time, not running — because all old workers were
stopped and discarded and new ones built from scratch. -/
theorem refresh_resets_registry (m : CameraManager)
    (configs : List CameraConfig) (hne : configs ≠ []) :
    (m.refresh_camera_configs configs).1 = true ∧
    (∀ i, i ∈ ((m.refresh_camera_configs configs).2).knownIds ↔
      ∃ c ∈ configs, c.id = i) ∧
    (∀ i s, lookupStream i ((m.refresh_camera_configs configs).2).streams = some s →
      s.frames_captured = 0 ∧ s.latest_frame = none ∧ s.frame_timestamp = 0 ∧
      s.last_frame_time = 0 ∧ s.start_time = none ∧ s.is_running = false) := by
  have hemp : configs.isEmpty = false := by
    cases configs with
    | nil => exact absurd rfl hne
    | cons a l => rfl
  have hm : m.refresh_camera_configs configs =
      (true, ⟨initStreams [] configs⟩) := by
    unfold CameraManager.refresh_camera_configs CameraManager.initialize_cameras
    simp [hemp]
  rw [hm]
  refine ⟨rfl, ?_, ?_⟩
  · intro i
    have : (⟨initStreams [] configs⟩ : CameraManager).knownIds =
        (initStreams [] configs).map Prod.fst := rfl
    rw [this, ← lookupStream_isSome_iff, initStreams_lookup]
    simp only [lookupStream]
    rw [Option.isSome_map']
    rw [List.find?_isSome]
    simp
  · intro i s hs
    rw [initStreams_lookup] at hs
    simp only [lookupStream] at hs
    rw [Option.map_eq_some'] at hs
    obtain ⟨c, _, hcs⟩ := hs
    subst hcs
    simp [CameraStream.mk0]

/-- Concrete instantiation of `refresh_resets_registry`: refreshing the
running sample registry with the single config for camera 2 succeeds and
makes id 2 (and nothing else from the old map) known. -/
theorem refresh_resets_registry_witness :
    (mgrA.refresh_camera_configs [cfgB]).1 = true ∧
    (2 ∈ ((mgrA.refresh_camera_configs [cfgB]).2).knownIds ↔
      ∃ c ∈ [cfgB], c.id = 2) ∧
    (1 ∈ ((mgrA.refresh_camera_configs [cfgB]).2).knownIds ↔
      ∃ c ∈ [cfgB], c.id = 1) := by
  have h := refresh_resets_registry mgrA [cfgB] (by simp)
  exact ⟨h.1, h.2.1 2, h.2.1 1⟩

/-- Claim C8 is false on the code at this concrete input: camera 1 is
unknown to the empty registry, yet `start_camera(1)` returns `True` — the
id is lazily constructed from the fresh config pull and the device opens,
so not every registry operation on a registry-unknown id returns a
failure value. -/
theorem unknown_id_start_succeeds_cex :
    lookupStream 1 CameraManager.mk0.streams = none ∧
    (CameraManager.mk0.start_camera [cfgA] true 0 1).1 = true := by
  constructor
  · rfl
  · unfold CameraManager.start_camera
    simp [CameraManager.mk0, lookupStream, cfgA, CameraStream.start,
      CameraStream.mk0, List.find?]

/-- Claim C8, amended: for every id unknown to the registry,
`get_camera_frame` and `get_camera_status` return absent and
`is_camera_running` and `stop_camera` return `False`; `start_camera`
returns `False` when the id is additionally absent from the fresh config
pull (when the pull does contain it, lazy construction may succeed).  All
five operations are total Lean functions: failure is communicated by the
return value, never by an exception. -/
theorem unknown_id_operations_report_failure (m : CameraManager) (i : Nat)
    (now : ℚ) (h : lookupStream i m.streams = none) :
    m.get_camera_frame i = none ∧
    m.get_camera_status i now = none ∧
    m.is_camera_running i = false ∧
    (m.stop_camera i).1 = false ∧
    (∀ configs opens t, (∀ c ∈ configs, c.id ≠ i) →
      (m.start_camera configs opens t i).1 = false) := by
  refine ⟨?_, ?_, ?_, ?_, ?_⟩
  · unfold CameraManager.get_camera_frame
    rw [h]
  · unfold CameraManager.get_camera_status
    rw [h]
  · unfold CameraManager.is_camera_running
    rw [h]
  · unfold CameraManager.stop_camera
    rw [h]
  · intro configs opens t h2
    unfold CameraManager.start_camera
    rw [h, find_config_eq_none configs i h2]

/-- Concrete instantiation of `unknown_id_operations_report_failure` at
id 99, unknown to the empty registry and absent from the config pull. -/
theorem unknown_id_operations_report_failure_witness :
    CameraManager.mk0.get_camera_frame 99 = none ∧
    CameraManager.mk0.get_camera_status 99 0 = none ∧
    CameraManager.mk0.is_camera_running 99 = false ∧
    (CameraManager.mk0.stop_camera 99).1 = false ∧
    (CameraManager.mk0.start_camera [cfgA] false 0 99).1 = false := by
  have h := unknown_id_operations_report_failure CameraManager.mk0 99 0 rfl
  exact ⟨h.1, h.2.1, h.2.2.1, h.2.2.2.1, h.2.2.2.2 [cfgA] false 0 (by decide)⟩

/-- Claim C9: `get_stream_info` is total on every worker state: with no
start time the uptime is 0 and the actual fps is 0 (the division is
guarded, never a division by zero); whenever the uptime is not positive
the actual fps is 0; and while no frame has ever been captured
(`last_frame_time` not positive) the last-frame age is absent.  A freshly
constructed worker therefore reports uptime 0, fps 0 and no age. -/
theorem get_stream_info_total (s : CameraStream) (now : ℚ) (cfg : CameraConfig) :
    (s.start_time = none →
      (s.get_stream_info now).uptime_seconds = 0 ∧
      (s.get_stream_info now).actual_fps = 0) ∧
    (¬ 0 < (s.get_stream_info now).uptime_seconds →
      (s.get_stream_info now).actual_fps = 0) ∧
    (¬ 0 < s.last_frame_time →
      (s.get_stream_info now).last_frame_age = none) ∧
    ((CameraStream.mk0 cfg).get_stream_info now).uptime_seconds = 0 ∧
    ((CameraStream.mk0 cfg).get_stream_info now).actual_fps = 0 ∧
    ((CameraStream.mk0 cfg).get_stream_info now).last_frame_age = none := by
  refine ⟨?_, ?_, ?_, ?_, ?_, ?_⟩
  · intro h
    simp [CameraStream.get_stream_info, h]
  · intro h
    simp only [CameraStream.get_stream_info] at h ⊢
    rw [if_neg h]
  · intro h
    simp [CameraStream.get_stream_info, if_neg h]
  · simp [CameraStream.get_stream_info, CameraStream.mk0]
  · simp [CameraStream.get_stream_info, CameraStream.mk0]
  · simp [CameraStream.get_stream_info, CameraStream.mk0]

/-- Concrete instantiation of `get_stream_info_total` at a fresh worker
observed at time 5. -/
theorem get_stream_info_total_witness :
    ((CameraStream.mk0 cfgA).get_stream_info 5).uptime_seconds = 0 ∧
    ((CameraStream.mk0 cfgA).get_stream_info 5).actual_fps = 0 ∧
    ((CameraStream.mk0 cfgA).get_stream_info 5).last_frame_age = none := by
  have h := get_stream_info_total (CameraStream.mk0 cfgA) 5 cfgA
  exact ⟨(h.1 rfl).1, (h.1 rfl).2, h.2.2.1 (by simp [CameraStream.mk0])⟩
